import Mathlib

/-!
Verification development for the payment-gateway quality-scoring pipeline.

Shallow embedding of:
- the Decision Gate (src/src/layers/layer9_decision.py),
- the Semantic Validation layer (src/src/layers/layer4_3_semantic.py),
- the ingestion-adapter compliance scoring (src/src/csv_adapter.py).

Python floats are modelled as exact rationals.  Timestamps, execution
durations and uuid generation are not modelled (wall-clock effects).
The enums `Action` and `LayerStatus`, and the data carriers
`RecordPayload` and `ConfidenceAssessment`, come from modules of this
repository that are not in the source tree (config.py, layer5, layer8);
they are modelled from the spec, with their fields read off from their
uses inside layer9_decision.py.
-/

namespace PaymentPipeline

/-- Modelled from the spec: the four final actions of config.Action
(config.py is not in the source tree; spec section 3 and the glossary list
exactly these four values). -/
inductive Action where
  | SAFE_TO_USE
  | REVIEW_REQUIRED
  | ESCALATE
  | NO_ACTION
deriving DecidableEq, Repr

/-- Modelled from the spec: config.LayerStatus with the three stage
statuses of spec section 3. -/
inductive LayerStatus where
  | PASSED
  | DEGRADED
  | FAILED
deriving DecidableEq, Repr

/-- Modelled from the spec: layer5_output_contract.RecordPayload -- the
accumulated quality signals consumed by the Decision Gate (spec section 3).
Field names are exactly the attributes layer9_decision.py reads from it.
Record ids are modelled as naturals. -/
structure RecordPayload where
  record_id : Nat
  is_valid : Bool
  dqs_base : ℚ
  semantic_violations : List String
  is_anomaly : Bool
  anomaly_score : ℚ
  anomaly_flags : List String
deriving DecidableEq, Repr

/-- Modelled from the spec: layer8_confidence.ConfidenceAssessment (spec
section 3).  The band is the string value of the ConfidenceBand enum,
one of "LOW", "MEDIUM", "HIGH", exactly as layer9 compares it. -/
structure ConfidenceAssessment where
  record_id : Nat
  confidence_score : ℚ
  confidence_band : String
deriving DecidableEq, Repr

/-- The primary reason returned by `_determine_action`, one constructor
per return site of the source, carrying the data its f-string
interpolates.  The audit strings (supporting factors, escalation reason)
are pure formatting of the same data and are not modelled. -/
inductive Reason where
  /-- RULE 1: "Record failed structural validation". -/
  | failedStructural
  /-- RULE 2: "Critical DQS score (...)". -/
  | criticalDqs (dqs : ℚ)
  /-- RULE 2.5: "Critical anomaly detected (...)". -/
  | criticalAnomaly (score : ℚ)
  /-- RULE 3: "Business Rules: ...".  In the source (lines 292-300) this
  return statement has no guarding if: the comment lines do not dedent,
  so it sits inside the RULE 2.5 branch after its return, i.e. it is
  unreachable dead code.  The constructor is kept to let claims about
  that rule be stated; no branch of `determine_action` produces it. -/
  | businessRules (violations : List String)
  /-- RULE 3.5: "Multiple anomaly flags (...)". -/
  | multipleAnomalyFlags (nflags : Nat) (score : ℚ)
  /-- RULE 4: "Borderline quality score (...)". -/
  | borderlineDqs (dqs : ℚ)
  /-- RULE 5: "Anomaly detected with uncertain confidence". -/
  | anomalyUncertain
  /-- RULE 6: "Low confidence in quality assessment". -/
  | lowConfidence (score : ℚ)
  /-- RULE 7: "Very high anomaly score requires review". -/
  | veryHighAnomaly (score : ℚ)
  /-- DEFAULT: "Record passes all quality checks". -/
  | passesAll
deriving DecidableEq, Repr

/-- Embeds `DecisionGateLayer._determine_action` (layer9_decision.py,
lines 249-377), parameterized by the two thresholds imported from the
missing config.py.  The cascade is translated branch for branch; the
orphaned RULE 3 return (lines 295-300) is dead code in the source --
nested after the return of the RULE 2.5 branch -- and therefore does not
appear as a branch here. -/
def determine_action (crit bord : ℚ) (r : RecordPayload)
    (band : String) (score : ℚ) : Action × Reason :=
  if r.is_valid = false then
    (Action.NO_ACTION, Reason.failedStructural)
  else if r.dqs_base < crit then
    (Action.ESCALATE, Reason.criticalDqs r.dqs_base)
  else if r.anomaly_score > 9/10 then
    (Action.ESCALATE, Reason.criticalAnomaly r.anomaly_score)
  else if r.is_anomaly = true ∧ 3 ≤ r.anomaly_flags.length ∧ r.anomaly_score > 7/10 then
    (Action.ESCALATE, Reason.multipleAnomalyFlags r.anomaly_flags.length r.anomaly_score)
  else if r.dqs_base < bord then
    (Action.REVIEW_REQUIRED, Reason.borderlineDqs r.dqs_base)
  else if r.is_anomaly = true ∧ band ≠ "HIGH" then
    (Action.REVIEW_REQUIRED, Reason.anomalyUncertain)
  else if band = "LOW" then
    (Action.REVIEW_REQUIRED, Reason.lowConfidence score)
  else if r.anomaly_score > 8/10 then
    (Action.REVIEW_REQUIRED, Reason.veryHighAnomaly r.anomaly_score)
  else
    (Action.SAFE_TO_USE, Reason.passesAll)

/-- One per-record decision, as built in `DecisionGateLayer.decide`
(lines 164-175).  `decision_timestamp` (wall clock) is not modelled. -/
structure Decision where
  record_id : Nat
  action : Action
  dqs_final : ℚ
  confidence_band : String
  primary_reason : Reason
  layer_votes : List (String × String)
  requires_human_review : Bool
deriving DecidableEq, Repr

/-- The layer-vote audit map of `decide` (lines 156-162). -/
def layer_votes_of (bord : ℚ) (r : RecordPayload) (band : String) :
    List (String × String) :=
  [("L4.1_structural", if r.is_valid then "PASS" else "FAIL"),
   ("L4.2_dqs", if r.dqs_base ≥ bord then "PASS" else "FAIL"),
   ("L4.3_semantic", if r.semantic_violations = [] then "PASS" else "FAIL"),
   ("L4.4_anomaly", if r.is_anomaly then "FLAG" else "PASS"),
   ("L8_confidence", band)]

/-- Builds the Decision for one record given its resolved confidence
band and score (`decide`, lines 150-175). -/
def decision_from (crit bord : ℚ) (r : RecordPayload)
    (band : String) (score : ℚ) : Decision :=
  let ar := determine_action crit bord r band score
  { record_id := r.record_id
    action := ar.1
    dqs_final := r.dqs_base
    confidence_band := band
    primary_reason := ar.2
    layer_votes := layer_votes_of bord r band
    requires_human_review :=
      decide (ar.1 = Action.REVIEW_REQUIRED ∨ ar.1 = Action.ESCALATE) }

/-- The confidence lookup of `decide` (lines 135-137): a dict built by
inserting assessments in order, so a later assessment with the same
record id overwrites an earlier one; `dict.get` therefore returns the
last matching assessment, or nothing. -/
def confidence_lookup (cas : List ConfidenceAssessment) (rid : Nat) :
    Option ConfidenceAssessment :=
  cas.reverse.find? (fun ca => ca.record_id == rid)

/-- Per-record body of the decision loop (`decide`, lines 144-176):
resolve the confidence assessment, defaulting to band "MEDIUM" and
score 50.0 when the record id has no assessment, then decide. -/
def decide_one (crit bord : ℚ) (cas : List ConfidenceAssessment)
    (r : RecordPayload) : Decision :=
  match confidence_lookup cas r.record_id with
  | some ca => decision_from crit bord r ca.confidence_band ca.confidence_score
  | none => decision_from crit bord r "MEDIUM" 50

/-- Batch decision summary (`BatchDecision`, lines 57-75); the wall-clock
timestamp is not modelled. -/
structure BatchDecision where
  batch_id : String
  total_records : Nat
  safe_count : Nat
  review_count : Nat
  escalate_count : Nat
  no_action_count : Nat
  overall_quality_rate : ℚ
  requires_human_review : Bool
  decisions : List Decision
deriving DecidableEq, Repr

/-- Embeds the batch part of `DecisionGateLayer.decide` (lines 119-204).
On an empty payload list the source returns early without building a
BatchDecision, modelled as `none`.  Counts are the action counts of
lines 185-188, the quality rate line 190 and the human-review flag
line 191. -/
def decide_batch (crit bord : ℚ) (payloads : List RecordPayload)
    (cas : List ConfidenceAssessment) (batch_id : String) :
    Option BatchDecision :=
  if payloads.isEmpty then none
  else
    let ds := payloads.map (decide_one crit bord cas)
    let n := payloads.length
    let safe := ds.countP (fun d => decide (d.action = Action.SAFE_TO_USE))
    let review := ds.countP (fun d => decide (d.action = Action.REVIEW_REQUIRED))
    let esc := ds.countP (fun d => decide (d.action = Action.ESCALATE))
    let noact := ds.countP (fun d => decide (d.action = Action.NO_ACTION))
    some
      { batch_id := batch_id
        total_records := n
        safe_count := safe
        review_count := review
        escalate_count := esc
        no_action_count := noact
        overall_quality_rate := if 0 < n then (safe : ℚ) / n * 100 else 0
        requires_human_review := decide (0 < review ∨ 0 < esc)
        decisions := ds }

/-!
Semantic Validation layer (src/src/layers/layer4_3_semantic.py).

Pandas rows are modelled as association lists from column name to a
`Value`; `row.get(key, default)` is lookup with default.  A `Value` is a
number (Python int/float as an exact rational), a string, or null
(None/NaN, which `pd.isna` detects; the two are conflated since no rule
distinguishes them).  Python raises TypeError when ordering a string or
None against a number; the embedding mirrors that by making the ordering
helpers return `Except`.  Parsing of numeric strings by `float()` and
`int()` and of date strings by `pd.to_datetime` is not modelled: such
strings take the error path of the enclosing try/except, exactly as
non-numeric strings do in the source. -/

/-- ASCII lowercasing of one character.  Python str.lower is
Unicode-aware; every string this pipeline lowercases (column names,
status values, country codes) is ASCII, where this agrees with it. -/
def lowerChar (c : Char) : Char :=
  if 65 ≤ c.toNat ∧ c.toNat ≤ 90 then Char.ofNat (c.toNat + 32) else c

/-- ASCII uppercasing of one character (see `lowerChar`). -/
def upperChar (c : Char) : Char :=
  if 97 ≤ c.toNat ∧ c.toNat ≤ 122 then Char.ofNat (c.toNat - 32) else c

/-- Python `s.lower()` over ASCII data. -/
def pyLower (s : String) : String := ⟨s.data.map lowerChar⟩

/-- Python `s.upper()` over ASCII data. -/
def pyUpper (s : String) : String := ⟨s.data.map upperChar⟩

/-- Python whitespace for `s.strip()`. -/
def isPySpace (c : Char) : Bool := c = ' ' ∨ c = '\t' ∨ c = '\n' ∨ c = '\r'

/-- Python `s.strip()`. -/
def pyStrip (s : String) : String :=
  ⟨((s.data.dropWhile isPySpace).reverse.dropWhile isPySpace).reverse⟩

/-- A Python cell value in a pandas row. -/
inductive Value where
  | num (q : ℚ)
  | str (s : String)
  | null
deriving DecidableEq, Repr

/-- A pandas Series row: association list from column name to value. -/
def PyRow := List (String × Value)

/-- `row.get(key, default)`. -/
def PyRow.get (row : PyRow) (key : String) (dflt : Value) : Value :=
  match List.find? (fun p => p.1 == key) row with
  | some p => p.2
  | none => dflt

/-- `pd.isna(v)`: true exactly on None/NaN. -/
def Value.isna : Value → Bool
  | Value.null => true
  | _ => false

/-- Python `str(v)` as used by the rules (None prints as "None", NaN as
"nan"; the embedding conflates them as "nan"; numbers render via the
rational printer). -/
def Value.pyStr : Value → String
  | Value.num q => toString q
  | Value.str s => s
  | Value.null => "nan"

/-- Python `v > q` for a numeric right operand: TypeError unless `v` is
a number. -/
def Value.gtQ : Value → ℚ → Except String Bool
  | Value.num a, q => Except.ok (decide (a > q))
  | _, _ => Except.error "TypeError: unsupported comparison"

/-- Python `v >= q`. -/
def Value.geQ : Value → ℚ → Except String Bool
  | Value.num a, q => Except.ok (decide (a ≥ q))
  | _, _ => Except.error "TypeError: unsupported comparison"

/-- Python `v < q`. -/
def Value.ltQ : Value → ℚ → Except String Bool
  | Value.num a, q => Except.ok (decide (a < q))
  | _, _ => Except.error "TypeError: unsupported comparison"

/-- Python chained `lo <= v <= hi`. -/
def Value.betweenQ : Value → ℚ → ℚ → Except String Bool
  | Value.num a, lo, hi => Except.ok (decide (lo ≤ a ∧ a ≤ hi))
  | _, _, _ => Except.error "TypeError: unsupported comparison"

/-- Python `v == q` for a numeric right operand: never raises, false on
non-numbers. -/
def Value.eqNum : Value → ℚ → Bool
  | Value.num a, q => decide (a = q)
  | _, _ => false

/-- Python `float(v)`: numbers pass through, None raises TypeError;
strings raise ValueError (numeric-string parsing not modelled, see the
section comment). -/
def Value.toFloat : Value → Except String ℚ
  | Value.num a => Except.ok a
  | Value.str _ => Except.error "ValueError: could not convert string to float"
  | Value.null => Except.error "TypeError: float() argument must be a number"

/-- Python `int(v)`, truncating toward zero. -/
def Value.toInt : Value → Except String Int
  | Value.num a => Except.ok (if a < 0 then -((-a).floor) else a.floor)
  | Value.str _ => Except.error "ValueError: invalid literal for int"
  | Value.null => Except.error "TypeError: int() argument must be a number"

/-- `RuleResult` (layer4_3_semantic.py, lines 28-35). -/
structure RuleResult where
  rule_id : String
  rule_name : String
  passed : Bool
  severity : String
  message : String := ""
deriving DecidableEq, Repr

/-- `_check_positive_amount` (BR001, lines 337-347). -/
def check_positive_amount (_row feat_row : PyRow) : Except String RuleResult := do
  let amount := feat_row.get "txn_amount" (Value.num 0)
  let passed ← amount.gtQ 0
  pure { rule_id := "BR001", rule_name := "Amount must be positive",
         passed := passed, severity := "critical",
         message := if passed then "" else "Non-positive amount: " ++ amount.pyStr }

/-- `_check_settlement_math` (BR002, lines 349-383).  The inner
try/except that passes the rule on conversion failure is the
`Except.ok` fallback of the last branch. -/
def check_settlement_math (row _feat_row : PyRow) : Except String RuleResult := do
  let gross := row.get "settlement_gross_amount" Value.null
  let int_fee := row.get "settlement_interchange_fee" Value.null
  let gw_fee := row.get "settlement_gateway_fee" Value.null
  let net := row.get "settlement_net_amount" Value.null
  if gross.isna || int_fee.isna || gw_fee.isna || net.isna then
    pure { rule_id := "BR002", rule_name := "Settlement math",
           passed := true, severity := "critical",
           message := "Settlement data not present" }
  else
    match gross.toFloat, int_fee.toFloat, gw_fee.toFloat, net.toFloat with
    | Except.ok g, Except.ok i, Except.ok w, Except.ok n =>
      let expected := g - i - w
      let passed := decide (|n - expected| < 1)
      pure { rule_id := "BR002", rule_name := "Settlement math",
             passed := passed, severity := "critical",
             message := if passed then "" else
               "Net " ++ toString n ++ " != Expected " ++ toString expected }
    | _, _, _, _ =>
      pure { rule_id := "BR002", rule_name := "Settlement math",
             passed := true, severity := "critical" }

/-- `_check_settlement_sequence` (BR003, lines 385-415).  Dates are
modelled as numbers (an ordinal); values `pd.to_datetime` would fail on
take the internal except branch, which passes the rule. -/
def check_settlement_sequence (row _feat_row : PyRow) : Except String RuleResult := do
  let clearing := row.get "settlement_clearing_date" Value.null
  let settlement := row.get "settlement_settlement_date" Value.null
  if clearing.isna || settlement.isna then
    pure { rule_id := "BR003", rule_name := "Settlement sequence",
           passed := true, severity := "critical" }
  else
    match clearing, settlement with
    | Value.num c, Value.num s =>
      let passed := decide (s ≥ c)
      pure { rule_id := "BR003", rule_name := "Settlement sequence",
             passed := passed, severity := "critical",
             message := if passed then "" else
               "Settlement " ++ settlement.pyStr ++ " before clearing " ++ clearing.pyStr }
    | _, _ =>
      pure { rule_id := "BR003", rule_name := "Settlement sequence",
             passed := true, severity := "critical" }

/-- `_check_auth_code_present` (BR004, lines 417-437). -/
def check_auth_code_present (row _feat_row : PyRow) : Except String RuleResult := do
  let status := pyLower (row.get "txn_status" (Value.str "")).pyStr
  let auth_code := row.get "txn_authorization_code" (Value.str "")
  if status ≠ "approved" then
    pure { rule_id := "BR004", rule_name := "Auth code for approved",
           passed := true, severity := "critical" }
  else
    let passed := !auth_code.isna && pyStrip auth_code.pyStr ≠ ""
    pure { rule_id := "BR004", rule_name := "Auth code for approved",
           passed := passed, severity := "critical",
           message := if passed then "" else "Approved transaction without auth code" }

/-- `_check_card_not_expired` (BR005, lines 439-449). -/
def check_card_not_expired (_row feat_row : PyRow) : Except String RuleResult := do
  let months := feat_row.get "card_expiry_months_remaining" (Value.num 12)
  let passed ← months.geQ 0
  pure { rule_id := "BR005", rule_name := "Card not expired",
         passed := passed, severity := "critical",
         message := if passed then "" else
           match months with
           | Value.num m => "Card expired " ++ toString (-m) ++ " months ago"
           | _ => "" }

/-- The MCC expected-amount ranges of BR006 (lines 461-469). -/
def mcc_ranges (mcc : Int) : ℚ × ℚ :=
  if mcc = 58 then (100, 10000)
  else if mcc = 54 then (50, 15000)
  else if mcc = 55 then (100, 10000)
  else if mcc = 53 then (200, 50000)
  else if mcc = 41 then (50, 5000)
  else if mcc = 70 then (1000, 100000)
  else if mcc = 56 then (200, 30000)
  else (50, 100000)

/-- `_check_amount_category_rationality` (BR006, lines 455-480). -/
def check_amount_category (_row feat_row : PyRow) : Except String RuleResult := do
  let amount := feat_row.get "txn_amount" (Value.num 0)
  let mcc2 := feat_row.get "merchant_mcc_first2" (Value.num 0)
  let mccInt ← mcc2.toInt
  let range := mcc_ranges mccInt
  let passed ← amount.betweenQ range.1 range.2
  pure { rule_id := "BR006", rule_name := "Amount rationality",
         passed := passed, severity := "warning",
         message := if passed then "" else
           "Amount " ++ amount.pyStr ++ " unusual for MCC " ++ mcc2.pyStr }

/-- `_check_risk_consistency` (BR007, lines 482-496). -/
def check_risk_consistency (_row feat_row : PyRow) : Except String RuleResult := do
  let risk_score := feat_row.get "fraud_risk_score" (Value.num 0)
  let risk_level := feat_row.get "fraud_risk_level_encoded" (Value.num 0)
  let hi ← risk_score.gtQ 70
  let mid ← risk_score.gtQ 40
  let expected : ℚ := if hi then 2 else if mid then 1 else 0
  let passed := risk_level.eqNum expected
  pure { rule_id := "BR007", rule_name := "Risk consistency",
         passed := passed, severity := "warning",
         message := if passed then "" else
           "Risk level " ++ risk_level.pyStr ++ " inconsistent with score " ++ risk_score.pyStr }

/-- `_check_geo_consistency` (BR008, lines 498-515). -/
def check_geo_consistency (_row feat_row : PyRow) : Except String RuleResult := do
  let is_domestic := feat_row.get "merchant_is_domestic" (Value.num 1)
  let ip_domestic := feat_row.get "customer_ip_is_domestic" (Value.num 1)
  let passed := if is_domestic.eqNum 1 then ip_domestic.eqNum 1 else true
  pure { rule_id := "BR008", rule_name := "Geo consistency",
         passed := passed, severity := "warning",
         message := if passed then "" else "Domestic merchant with foreign IP" }

/-- `_check_3ds_for_high_value` (BR009, lines 517-534). -/
def check_3ds_high_value (_row feat_row : PyRow) : Except String RuleResult := do
  let amount := feat_row.get "txn_amount" (Value.num 0)
  let auth_result := feat_row.get "auth_result_encoded" (Value.num 0)
  let high ← amount.gtQ 10000
  let passed := if high then auth_result.eqNum 0 else true
  pure { rule_id := "BR009", rule_name := "3DS for high value",
         passed := passed, severity := "warning",
         message := if passed then "" else
           "High value ₹" ++ amount.pyStr ++ " without 3DS authentication" }

/-- `_check_velocity_risk_correlation` (BR010, lines 536-552). -/
def check_velocity_risk (_row feat_row : PyRow) : Except String RuleResult := do
  let velocity := feat_row.get "fraud_velocity_passed" (Value.num 1)
  let risk_score := feat_row.get "fraud_risk_score" (Value.num 0)
  let passed ← if velocity.eqNum 0 then risk_score.geQ 40 else pure true
  pure { rule_id := "BR010", rule_name := "Velocity-risk correlation",
         passed := passed, severity := "warning",
         message := if passed then "" else
           "Failed velocity but low risk: " ++ risk_score.pyStr }

/-- `_check_fee_ratio` (BR011, lines 554-565). -/
def check_fee_ratio (_row feat_row : PyRow) : Except String RuleResult := do
  let fr := feat_row.get "settlement_fee_ratio" (Value.num (2/100))
  let passed ← fr.ltQ (5/100)
  pure { rule_id := "BR011", rule_name := "Reasonable fee ratio",
         passed := passed, severity := "warning",
         message := if passed then "" else
           match fr with
           | Value.num q => "High fee ratio: " ++ toString (q * 100) ++ "%"
           | _ => "" }

/-- `_check_address_country_match` (BR012, lines 567-585). -/
def check_address_country (row _feat_row : PyRow) : Except String RuleResult := do
  let billing := pyUpper (row.get "customer_billing_address_country" (Value.str "")).pyStr
  let shipping := pyUpper (row.get "customer_shipping_address_country" (Value.str "")).pyStr
  let merchant := pyUpper (row.get "merchant_country" (Value.str "")).pyStr
  let passed :=
    if merchant = "IN" then
      decide ((billing = "IN" ∨ billing = "") ∧ (shipping = "IN" ∨ shipping = ""))
    else true
  pure { rule_id := "BR012", rule_name := "Address country match",
         passed := passed, severity := "warning",
         message := if passed then "" else "Domestic merchant but foreign address" }

/-- One entry of the business-rule catalog (`_define_rules`,
lines 69-147): rule id, display name, severity tag, and the check
closure. -/
structure Rule where
  rule_id : String
  name : String
  severity : String
  check : PyRow → PyRow → Except String RuleResult

/-- Catalog entry of BR001 (`_define_rules`, lines 73-78). -/
def rule_br001 : Rule :=
  ⟨"BR001", "Amount must be positive", "critical", check_positive_amount⟩

/-- Catalog entry of BR002 (lines 79-84). -/
def rule_br002 : Rule :=
  ⟨"BR002", "Net amount must equal gross minus fees", "critical", check_settlement_math⟩

/-- Catalog entry of BR003 (lines 85-90). -/
def rule_br003 : Rule :=
  ⟨"BR003", "Settlement date must be after clearing date", "critical", check_settlement_sequence⟩

/-- Catalog entry of BR004 (lines 91-96). -/
def rule_br004 : Rule :=
  ⟨"BR004", "Approved transactions must have authorization code", "critical", check_auth_code_present⟩

/-- Catalog entry of BR005 (lines 97-102). -/
def rule_br005 : Rule :=
  ⟨"BR005", "Card expiry must not be in past", "critical", check_card_not_expired⟩

/-- Catalog entry of BR006 (lines 105-110). -/
def rule_br006 : Rule :=
  ⟨"BR006", "Amount should be rational for category", "warning", check_amount_category⟩

/-- Catalog entry of BR007 (lines 111-116). -/
def rule_br007 : Rule :=
  ⟨"BR007", "Risk score should match risk level", "warning", check_risk_consistency⟩

/-- Catalog entry of BR008 (lines 117-122). -/
def rule_br008 : Rule :=
  ⟨"BR008", "Domestic transaction should use domestic IP", "warning", check_geo_consistency⟩

/-- Catalog entry of BR009 (lines 123-128). -/
def rule_br009 : Rule :=
  ⟨"BR009", "3DS authentication should be present for high-value", "warning", check_3ds_high_value⟩

/-- Catalog entry of BR010 (lines 129-134). -/
def rule_br010 : Rule :=
  ⟨"BR010", "Failed velocity check should increase risk", "warning", check_velocity_risk⟩

/-- Catalog entry of BR011 (lines 135-140). -/
def rule_br011 : Rule :=
  ⟨"BR011", "Fee ratio should be reasonable (less than 5 percent)", "warning", check_fee_ratio⟩

/-- Catalog entry of BR012 (lines 141-146). -/
def rule_br012 : Rule :=
  ⟨"BR012", "Billing and shipping country should match for domestic", "warning", check_address_country⟩

/-- The fixed rule catalog of `_define_rules` (lines 69-147), in source
order. -/
def semantic_rules : List Rule :=
  [rule_br001, rule_br002, rule_br003, rule_br004, rule_br005, rule_br006,
   rule_br007, rule_br008, rule_br009, rule_br010, rule_br011, rule_br012]

/-- Accumulator of the per-record rule loop (`validate`, lines 211-240):
pass/fail counts and the violation/warning lists in evaluation order. -/
structure EvalState where
  rules_passed : Nat
  rules_failed : Nat
  critical_violations : List RuleResult
  warnings : List RuleResult
deriving DecidableEq, Repr

/-- The empty accumulator (lines 211-214). -/
def EvalState.init : EvalState := ⟨0, 0, [], []⟩

/-- One iteration of the rule loop (`validate`, lines 216-240).  On a
successful check the result fields rule_id/rule_name/severity are
overwritten from the catalog entry (lines 219-221) before counting; a
raised error is converted to a failed warning-severity RuleResult whose
message carries the error text (lines 231-240). -/
def eval_step (row feat_row : PyRow) (s : EvalState) (rule : Rule) : EvalState :=
  match rule.check row feat_row with
  | Except.ok res0 =>
    let res := { res0 with rule_id := rule.rule_id, rule_name := rule.name,
                           severity := rule.severity }
    if res.passed then
      { s with rules_passed := s.rules_passed + 1 }
    else if res.severity = "critical" then
      { s with rules_failed := s.rules_failed + 1,
               critical_violations := s.critical_violations ++ [res] }
    else
      { s with rules_failed := s.rules_failed + 1,
               warnings := s.warnings ++ [res] }
  | Except.error e =>
    { s with rules_failed := s.rules_failed + 1,
             warnings := s.warnings ++
               [{ rule_id := rule.rule_id, rule_name := rule.name,
                  passed := false, severity := "warning",
                  message := "Rule evaluation error: " ++ e }] }

/-- Runs the rule loop over a catalog (`validate`, lines 216-240). -/
def eval_rules (rules : List Rule) (row feat_row : PyRow) : EvalState :=
  rules.foldl (eval_step row feat_row) EvalState.init

/-- `SemanticValidation` (lines 38-47). -/
structure SemanticValidation where
  record_id : Nat
  semantic_score : ℚ
  rules_passed : Nat
  rules_failed : Nat
  critical_violations : List RuleResult
  warnings : List RuleResult
  passes_validation : Bool
deriving DecidableEq, Repr

/-- Per-record body of `SemanticValidationLayer.validate`
(lines 202-264): run all rules, compute the semantic score
(lines 242-244: passed/total*100, or 100 when no rules were evaluated)
and `passes_validation` = no critical violations (line 247).  The
primary-key resolution is not modelled; the record id is passed in. -/
def evaluate_record (rid : Nat) (rules : List Rule) (row feat_row : PyRow) :
    SemanticValidation :=
  let s := eval_rules rules row feat_row
  let total := s.rules_passed + s.rules_failed
  { record_id := rid
    semantic_score :=
      if 0 < total then (s.rules_passed : ℚ) / (total : ℚ) * 100 else 100
    rules_passed := s.rules_passed
    rules_failed := s.rules_failed
    critical_violations := s.critical_violations
    warnings := s.warnings
    passes_validation := decide (s.critical_violations = []) }

/-- The record loop of `validate` (lines 202-264) over a batch given as
(record id, row, feature row) triples; the index filtering against the
dataframe length is not modelled. -/
def semantic_validate_batch (rules : List Rule)
    (records : List (Nat × PyRow × PyRow)) : List SemanticValidation :=
  records.map (fun t => evaluate_record t.1 rules t.2.1 t.2.2)

/-- A record is rejected when it fails validation (`validate`,
lines 261-262). -/
def isRejected (v : SemanticValidation) : Bool := !v.passes_validation

/-- A record is flagged when it passes validation but has warnings
(`validate`, lines 263-264: the elif branch). -/
def isFlagged (v : SemanticValidation) : Bool :=
  v.passes_validation && !v.warnings.isEmpty

/-- Batch status of `validate` (lines 271-297): FAILED without
continuation when every evaluated record was rejected (and at least one
was evaluated), DEGRADED when any was rejected or flagged, PASSED
otherwise. -/
def semantic_batch_summary (results : List SemanticValidation) :
    LayerStatus × Bool :=
  let n_validated := results.length
  let n_rejected := results.countP isRejected
  let n_flagged := results.countP isFlagged
  if n_rejected = n_validated ∧ 0 < n_validated then (LayerStatus.FAILED, false)
  else if 0 < n_rejected ∨ 0 < n_flagged then (LayerStatus.DEGRADED, true)
  else (LayerStatus.PASSED, true)

/-- Modelled from the spec: layer 5 (the output contract, not in the
source tree) populates `RecordPayload.semantic_violations` from the
critical violations of the semantic layer -- "any failure makes
passes_validation=False and the semantic violations of the record populate
RecordPayload" (spec section 4.2).  The messages are used, matching the
Decision Gate joining them into its reason text. -/
def semantic_violations_of (v : SemanticValidation) : List String :=
  v.critical_violations.map (fun c => c.message)

/-!
Ingestion adapter compliance scoring (src/src/csv_adapter.py).
-/

/-- `REQUIRED_FIELDS` (csv_adapter.py, lines 16-22), in dict insertion
order: section name with its required fields. -/
def REQUIRED_FIELDS : List (String × List String) :=
  [("transaction", ["transaction_id", "amount", "currency", "timestamp"]),
   ("card", ["network", "card_type"]),
   ("merchant", ["merchant_id", "merchant_category_code", "country"]),
   ("customer", ["customer_id"]),
   ("fraud", ["risk_score"])]

/-- `FIELD_MAPPINGS` (lines 25-56), in dict insertion order: schema field
name with the CSV column names that map to it. -/
def FIELD_MAPPINGS : List (String × List String) :=
  [("transaction_id", ["transaction_id", "txn_id", "id", "order_id", "ref_id", "reference"]),
   ("amount", ["amount", "txn_amount", "transaction_amount", "value", "total", "price"]),
   ("currency", ["currency", "currency_code", "ccy"]),
   ("timestamp", ["timestamp", "date", "datetime", "txn_date", "transaction_date", "created_at"]),
   ("status", ["status", "txn_status", "transaction_status", "state"]),
   ("type", ["type", "txn_type", "transaction_type"]),
   ("network", ["network", "card_network", "scheme"]),
   ("card_type", ["card_type", "type", "funding_type"]),
   ("bin", ["bin", "card_bin"]),
   ("last4", ["last4", "last_4", "card_last4"]),
   ("merchant_id", ["merchant_id", "mid", "store_id", "seller_id"]),
   ("terminal_id", ["terminal_id", "tid", "pos_id"]),
   ("merchant_name", ["merchant_name", "store_name", "seller_name", "name"]),
   ("merchant_category_code", ["mcc", "merchant_category_code", "category_code"]),
   ("country", ["country", "merchant_country", "location_country"]),
   ("customer_id", ["customer_id", "cust_id", "user_id", "buyer_id"]),
   ("email", ["email", "customer_email", "user_email"]),
   ("phone", ["phone", "mobile", "customer_phone"]),
   ("ip_address", ["ip_address", "ip", "client_ip"]),
   ("risk_score", ["risk_score", "fraud_score", "risk"]),
   ("risk_level", ["risk_level", "fraud_level"])]

/-- The `headers_lower` dict of `detect_csv_columns` (line 65): maps the
lowercased, stripped header to the original header; built by insertion,
so a later duplicate key overwrites, hence lookup takes the last
match. -/
def headers_lower_get (headers : List String) (key : String) : Option String :=
  ((headers.map (fun h => (pyStrip (pyLower h), h))).reverse.find?
    (fun p => p.1 == key)).map (fun p => p.2)

/-- `detect_csv_columns` (lines 59-73): for each schema field, the first
candidate column name found among the lowercased headers is recorded,
mapping the schema field to the original header. -/
def detect_csv_columns (headers : List String) : List (String × String) :=
  FIELD_MAPPINGS.foldl
    (fun acc p =>
      match p.2.findSome?
          (fun name => headers_lower_get headers (pyLower name)) with
      | some orig => acc ++ [(p.1, orig)]
      | none => acc)
    []

/-- Key membership in a column mapping (Python `field in column_mapping`). -/
def has_field (cm : List (String × String)) (f : String) : Bool :=
  cm.any (fun p => p.1 == f)

/-- All (section, field) pairs of `REQUIRED_FIELDS`, in the nested loop
order of `calculate_schema_compliance` (lines 85-91). -/
def required_pairs : List (String × String) :=
  REQUIRED_FIELDS.flatMap (fun sec => sec.2.map (fun f => (sec.1, f)))

/-- `calculate_schema_compliance` (lines 76-94): the fraction of the 11
required fields present in the mapping, as a 0-100 score, together with
the missing fields written as "section.field" in iteration order. -/
def calculate_schema_compliance (cm : List (String × String)) :
    ℚ × List String :=
  let total := required_pairs.length
  let found := required_pairs.countP (fun p => has_field cm p.2)
  let missing := (required_pairs.filter (fun p => !has_field cm p.2)).map
    (fun p => p.1 ++ "." ++ p.2)
  (if 0 < total then (found : ℚ) / (total : ℚ) * 100 else 0, missing)

/-- The compliance fields of the flat-JSON import metadata
(`adapt_flat_json_to_visa`, lines 320-339). -/
structure ImportMetadata where
  compliance_score : ℚ
  missing_fields : List String
  mapped_fields : List String
  is_standard_format : Bool
  quality_penalty : ℚ
deriving DecidableEq, Repr

/-- The flat branch of `adapt_flat_json_to_visa` (lines 320-339): detect
the column mapping from the keys of the first record, score compliance,
and derive `is_standard_format` from the 80 threshold and the quality
penalty. -/
def adapt_flat_json_meta (headers : List String) : ImportMetadata :=
  let cm := detect_csv_columns headers
  let sc := calculate_schema_compliance cm
  { compliance_score := sc.1
    missing_fields := sc.2
    mapped_fields := cm.map (fun p => p.1)
    is_standard_format := decide (sc.1 ≥ 80)
    quality_penalty := max 0 ((100 - sc.1) / 2) }

/-!
Theorems.
-/

/-- Every decision list splits its length across the four action
buckets. -/
lemma countP_four_actions (l : List Decision) :
    l.countP (fun d => decide (d.action = Action.SAFE_TO_USE))
      + l.countP (fun d => decide (d.action = Action.REVIEW_REQUIRED))
      + l.countP (fun d => decide (d.action = Action.ESCALATE))
      + l.countP (fun d => decide (d.action = Action.NO_ACTION)) = l.length := by
  induction l with
  | nil => simp
  | cons d t ih =>
    simp only [List.countP_cons, List.length_cons]
    cases h : d.action <;> simp [h] <;> omega

/-- C4: a record payload with is_valid false gets NO_ACTION with the
failed-structural-validation reason, for every threshold pair, every
other payload signal, every confidence band and score (RULE 1 of
`_determine_action` fires first). -/
theorem invalid_record_no_action (crit bord : ℚ) (r : RecordPayload)
    (band : String) (score : ℚ) (h : r.is_valid = false) :
    determine_action crit bord r band score
      = (Action.NO_ACTION, Reason.failedStructural) := by
  simp [determine_action, h]

/-- Witness for C4: a structurally invalid record with critical DQS,
critical anomaly score, semantic violations and low confidence still
gets NO_ACTION. -/
theorem invalid_record_no_action_witness :
    (({ record_id := 1, is_valid := false, dqs_base := 0,
        semantic_violations := ["Non-positive amount: -1"], is_anomaly := true,
        anomaly_score := 95/100, anomaly_flags := ["a", "b", "c"] } : RecordPayload).is_valid
      = false)
    ∧ determine_action 50 70
        { record_id := 1, is_valid := false, dqs_base := 0,
          semantic_violations := ["Non-positive amount: -1"], is_anomaly := true,
          anomaly_score := 95/100, anomaly_flags := ["a", "b", "c"] } "LOW" 10
      = (Action.NO_ACTION, Reason.failedStructural) :=
  ⟨rfl, invalid_record_no_action 50 70 _ "LOW" 10 rfl⟩

/-- C5: a valid record payload whose DQS is not below the critical
threshold and whose anomaly score exceeds 0.9 gets ESCALATE with the
critical-anomaly reason, for every confidence band and every
semantic-violation list (RULE 2.5 of `_determine_action`). -/
theorem critical_anomaly_escalates (crit bord : ℚ) (r : RecordPayload)
    (band : String) (score : ℚ) (hv : r.is_valid = true)
    (hd : ¬ r.dqs_base < crit) (ha : r.anomaly_score > 9/10) :
    determine_action crit bord r band score
      = (Action.ESCALATE, Reason.criticalAnomaly r.anomaly_score) := by
  simp [determine_action, hv, hd, ha]

/-- Witness for C5: a record with DQS 100, anomaly score 0.95, a
non-empty violation list and LOW confidence escalates with the
critical-anomaly reason. -/
theorem critical_anomaly_escalates_witness :
    (({ record_id := 2, is_valid := true, dqs_base := 100,
        semantic_violations := ["some violation"], is_anomaly := true,
        anomaly_score := 95/100, anomaly_flags := ["f1", "f2", "f3", "f4"] } : RecordPayload).is_valid
      = true)
    ∧ ¬ (100 : ℚ) < 50 ∧ (95/100 : ℚ) > 9/10
    ∧ determine_action 50 70
        { record_id := 2, is_valid := true, dqs_base := 100,
          semantic_violations := ["some violation"], is_anomaly := true,
          anomaly_score := 95/100, anomaly_flags := ["f1", "f2", "f3", "f4"] } "LOW" 10
      = (Action.ESCALATE, Reason.criticalAnomaly (95/100)) :=
  ⟨rfl, by norm_num, by norm_num,
    critical_anomaly_escalates 50 70 _ "LOW" 10 rfl (by norm_num) (by norm_num)⟩

/-- C3: on a non-empty payload batch, `decide` produces a BatchDecision
in which every record got exactly one of the four actions and the four
action counts sum to the total record count. -/
theorem decision_counts_sum (crit bord : ℚ) (payloads : List RecordPayload)
    (cas : List ConfidenceAssessment) (bid : String) (h : payloads ≠ []) :
    ∃ bd, decide_batch crit bord payloads cas bid = some bd
      ∧ bd.total_records = payloads.length
      ∧ bd.decisions.length = payloads.length
      ∧ (∀ d ∈ bd.decisions,
          d.action = Action.SAFE_TO_USE ∨ d.action = Action.REVIEW_REQUIRED
            ∨ d.action = Action.ESCALATE ∨ d.action = Action.NO_ACTION)
      ∧ bd.safe_count + bd.review_count + bd.escalate_count + bd.no_action_count
          = bd.total_records := by
  have hne : payloads.isEmpty = false := by
    cases payloads with
    | nil => exact absurd rfl h
    | cons p t => rfl
  refine ⟨_, by rw [decide_batch, hne]; rfl, rfl, by simp, ?_, ?_⟩
  · intro d _
    cases d.action <;> simp
  · show (payloads.map (decide_one crit bord cas)).countP _
        + (payloads.map (decide_one crit bord cas)).countP _
        + (payloads.map (decide_one crit bord cas)).countP _
        + (payloads.map (decide_one crit bord cas)).countP _ = payloads.length
    rw [countP_four_actions, List.length_map]

/-- Witness for C3: a two-record batch has counts summing to 2. -/
theorem decision_counts_sum_witness :
    ([({ record_id := 1, is_valid := true, dqs_base := 90,
         semantic_violations := [], is_anomaly := false,
         anomaly_score := 0, anomaly_flags := [] } : RecordPayload),
      { record_id := 2, is_valid := false, dqs_base := 10,
        semantic_violations := [], is_anomaly := false,
        anomaly_score := 0, anomaly_flags := [] }] ≠ [])
    ∧ ∃ bd, decide_batch 50 70
        [{ record_id := 1, is_valid := true, dqs_base := 90,
           semantic_violations := [], is_anomaly := false,
           anomaly_score := 0, anomaly_flags := [] },
         { record_id := 2, is_valid := false, dqs_base := 10,
           semantic_violations := [], is_anomaly := false,
           anomaly_score := 0, anomaly_flags := [] }] [] "b1" = some bd
      ∧ bd.total_records = 2
      ∧ bd.decisions.length = 2
      ∧ (∀ d ∈ bd.decisions,
          d.action = Action.SAFE_TO_USE ∨ d.action = Action.REVIEW_REQUIRED
            ∨ d.action = Action.ESCALATE ∨ d.action = Action.NO_ACTION)
      ∧ bd.safe_count + bd.review_count + bd.escalate_count + bd.no_action_count
          = bd.total_records :=
  ⟨by decide, decision_counts_sum 50 70 _ [] "b1" (by decide)⟩

/-- C1 (code bug): the semantic-violations rule of `_determine_action`
is dead code -- its return (source lines 295-300) carries no if and sits
inside the RULE 2.5 branch after that branch has returned.  A valid
record with DQS 90 at or above the critical threshold 50, anomaly score
0.5 not above 0.9, and a non-empty semantic-violation list therefore
does not escalate with the business-rules reason as the claim states:
it falls through the whole cascade to SAFE_TO_USE. -/
theorem semantic_violations_rule_dead_code :
    determine_action 50 70
      { record_id := 3, is_valid := true, dqs_base := 90,
        semantic_violations := ["Approved transaction without auth code"],
        is_anomaly := false, anomaly_score := 1/2, anomaly_flags := [] } "HIGH" 90
      = (Action.SAFE_TO_USE, Reason.passesAll) := by
  with_unfolding_all decide

/-- C10: a record payload whose record id has no confidence assessment
is decided with the default band "MEDIUM" and score 50; consequently its
reason is never the low-confidence one (that rule needs band "LOW"), and
when the earlier cascade rules do not fire an anomalous such record
takes the anomaly-with-uncertain-confidence review rule, since
"MEDIUM" is not "HIGH". -/
theorem missing_confidence_defaults_medium (crit bord : ℚ)
    (cas : List ConfidenceAssessment) (r : RecordPayload)
    (h : confidence_lookup cas r.record_id = none) :
    decide_one crit bord cas r = decision_from crit bord r "MEDIUM" 50
    ∧ (∀ q : ℚ, (decide_one crit bord cas r).primary_reason ≠ Reason.lowConfidence q)
    ∧ (r.is_valid = true → ¬ r.dqs_base < crit → ¬ r.anomaly_score > 9/10 →
        ¬ (r.is_anomaly = true ∧ 3 ≤ r.anomaly_flags.length ∧ r.anomaly_score > 7/10) →
        ¬ r.dqs_base < bord → r.is_anomaly = true →
        (decide_one crit bord cas r).action = Action.REVIEW_REQUIRED
        ∧ (decide_one crit bord cas r).primary_reason = Reason.anomalyUncertain) := by
  have hone : decide_one crit bord cas r = decision_from crit bord r "MEDIUM" 50 := by
    simp [decide_one, h]
  refine ⟨hone, ?_, ?_⟩
  · intro q
    rw [hone]
    simp only [decision_from, determine_action]
    split_ifs with h1 h2 h3 h4 h5 h6 h7 h8 <;> simp_all
  · intro hv hd ha h35 hb hanom
    have hno : ¬ (3 ≤ r.anomaly_flags.length ∧ 7/10 < r.anomaly_score) :=
      fun hc => h35 ⟨hanom, hc.1, hc.2⟩
    rw [hone]
    simp [decision_from, determine_action, hv, hd, ha, hno, hb, hanom,
      (by decide : ("MEDIUM" : String) ≠ "HIGH")]

/-- Witness for C10: a record whose id 3 is absent from the assessment
list (which holds an assessment for id 7) gets the MEDIUM default, and
being anomalous with DQS 85 and anomaly score 0.75 lands in the
anomaly-with-uncertain-confidence review rule. -/
theorem missing_confidence_defaults_medium_witness :
    (confidence_lookup [{ record_id := 7, confidence_score := 80, confidence_band := "HIGH" }]
        (({ record_id := 3, is_valid := true, dqs_base := 85,
            semantic_violations := [], is_anomaly := true,
            anomaly_score := 75/100, anomaly_flags := ["flag1"] } : RecordPayload).record_id)
      = none)
    ∧ (decide_one 50 70 [{ record_id := 7, confidence_score := 80, confidence_band := "HIGH" }]
          { record_id := 3, is_valid := true, dqs_base := 85,
            semantic_violations := [], is_anomaly := true,
            anomaly_score := 75/100, anomaly_flags := ["flag1"] }
        = decision_from 50 70
            { record_id := 3, is_valid := true, dqs_base := 85,
              semantic_violations := [], is_anomaly := true,
              anomaly_score := 75/100, anomaly_flags := ["flag1"] } "MEDIUM" 50)
    ∧ (decide_one 50 70 [{ record_id := 7, confidence_score := 80, confidence_band := "HIGH" }]
          { record_id := 3, is_valid := true, dqs_base := 85,
            semantic_violations := [], is_anomaly := true,
            anomaly_score := 75/100, anomaly_flags := ["flag1"] }).action
        = Action.REVIEW_REQUIRED
    ∧ (decide_one 50 70 [{ record_id := 7, confidence_score := 80, confidence_band := "HIGH" }]
          { record_id := 3, is_valid := true, dqs_base := 85,
            semantic_violations := [], is_anomaly := true,
            anomaly_score := 75/100, anomaly_flags := ["flag1"] }).primary_reason
        = Reason.anomalyUncertain := by
  have h := missing_confidence_defaults_medium 50 70
    [{ record_id := 7, confidence_score := 80, confidence_band := "HIGH" }]
    { record_id := 3, is_valid := true, dqs_base := 85,
      semantic_violations := [], is_anomaly := true,
      anomaly_score := 75/100, anomaly_flags := ["flag1"] } (by decide)
  have h3 := h.2.2 rfl (by norm_num) (by norm_num)
    (by intro hc; exact absurd hc.2.1 (by norm_num)) (by norm_num) rfl
  exact ⟨by decide, h.1, h3.1, h3.2⟩

/-- The empty original row of the C2 failing record: none of the
row-level columns are present, so the settlement, auth-code and address
rules all take their data-not-present passing branches. -/
def negative_amount_row : PyRow := []

/-- The feature row of the C2 failing record: transaction amount -5 with
otherwise benign feature values. -/
def negative_amount_features : PyRow :=
  [("txn_amount", Value.num (-5)),
   ("card_expiry_months_remaining", Value.num 12),
   ("merchant_mcc_first2", Value.num 58),
   ("fraud_risk_score", Value.num 0),
   ("fraud_risk_level_encoded", Value.num 0),
   ("merchant_is_domestic", Value.num 1),
   ("customer_ip_is_domestic", Value.num 1),
   ("auth_result_encoded", Value.num 0),
   ("fraud_velocity_passed", Value.num 1),
   ("settlement_fee_ratio", Value.num (2/100))]

/-- C2 (code bug): a record with txn_amount -5 does fail critical rule
BR001 and gets passes_validation false, as the claim states; but because
the semantic-violations rule of `_determine_action` is dead code (the
orphaned return of source lines 295-300), the Decision Gate still
assigns it SAFE_TO_USE when it is structurally valid with DQS 85,
anomaly score 0.1 and HIGH confidence -- contradicting the claim that
such a record can never be SAFE_TO_USE. -/
theorem nonpositive_amount_still_safe_to_use :
    (evaluate_record 7 semantic_rules negative_amount_row negative_amount_features).critical_violations
      = [{ rule_id := "BR001", rule_name := "Amount must be positive",
           passed := false, severity := "critical",
           message := "Non-positive amount: -5" }]
    ∧ (evaluate_record 7 semantic_rules negative_amount_row negative_amount_features).passes_validation
      = false
    ∧ determine_action 50 70
        { record_id := 7, is_valid := true, dqs_base := 85,
          semantic_violations :=
            semantic_violations_of
              (evaluate_record 7 semantic_rules negative_amount_row negative_amount_features),
          is_anomaly := false, anomaly_score := 1/10, anomaly_flags := [] } "HIGH" 80
      = (Action.SAFE_TO_USE, Reason.passesAll) := by
  refine ⟨?_, ?_, ?_⟩ <;> with_unfolding_all decide

/-- Rejection is failing validation. -/
lemma isRejected_eq (v : SemanticValidation) :
    isRejected v = true ↔ v.passes_validation = false := by
  simp [isRejected]

/-- Flagging is passing validation with a non-empty warning list. -/
lemma isFlagged_eq (v : SemanticValidation) :
    isFlagged v = true ↔ v.passes_validation = true ∧ v.warnings ≠ [] := by
  simp [isFlagged]

/-- C6: the semantic batch result is FAILED with can_continue false
exactly when at least one record was evaluated and every one was
rejected; DEGRADED with can_continue true exactly when some but not all
records were rejected or some record passed with warnings; and PASSED
with can_continue true exactly when every record passed with no
warnings. -/
theorem semantic_batch_status_spec (results : List SemanticValidation) :
    (semantic_batch_summary results = (LayerStatus.FAILED, false) ↔
      results ≠ [] ∧ ∀ v ∈ results, v.passes_validation = false)
    ∧ (semantic_batch_summary results = (LayerStatus.DEGRADED, true) ↔
      ((∃ v ∈ results, v.passes_validation = false)
          ∧ ∃ v ∈ results, v.passes_validation = true)
        ∨ ∃ v ∈ results, v.passes_validation = true ∧ v.warnings ≠ [])
    ∧ (semantic_batch_summary results = (LayerStatus.PASSED, true) ↔
      ∀ v ∈ results, v.passes_validation = true ∧ v.warnings = []) := by
  simp only [semantic_batch_summary]
  split_ifs with h1 h2
  · obtain ⟨hA, hB⟩ := h1
    have hall : ∀ v ∈ results, v.passes_validation = false := by
      intro v hv
      exact (isRejected_eq v).mp (List.countP_eq_length.mp hA v hv)
    have hne : results ≠ [] := by
      intro h0
      rw [h0] at hB
      simp at hB
    refine ⟨iff_of_true rfl ⟨hne, hall⟩, iff_of_false (by simp) ?_, iff_of_false (by simp) ?_⟩
    · rintro (⟨_, ⟨w, hw, hp⟩⟩ | ⟨w, hw, hp, _⟩) <;>
        exact absurd (hall w hw) (by simp [hp])
    · intro hall2
      obtain ⟨v, hv⟩ := List.exists_mem_of_ne_nil results hne
      exact absurd (hall v hv) (by simp [(hall2 v hv).1])
  · refine ⟨iff_of_false (by simp) ?_, iff_of_true rfl ?_, iff_of_false (by simp) ?_⟩
    · rintro ⟨hne, hall⟩
      refine h1 ⟨List.countP_eq_length.mpr ?_, ?_⟩
      · intro v hv
        exact (isRejected_eq v).mpr (hall v hv)
      · cases results with
        | nil => exact absurd rfl hne
        | cons a t => simp
    · rcases h2 with hr | hf
      · obtain ⟨v, hv, hrv⟩ := List.countP_pos_iff.mp hr
        left
        refine ⟨⟨v, hv, (isRejected_eq v).mp hrv⟩, ?_⟩
        by_contra hnone
        push_neg at hnone
        refine h1 ⟨List.countP_eq_length.mpr ?_, ?_⟩
        · intro w hw
          have := hnone w hw
          simp [isRejected]
          simpa using this
        · cases results with
          | nil => simp at hv
          | cons a t => simp
      · obtain ⟨v, hv, hfv⟩ := List.countP_pos_iff.mp hf
        exact Or.inr ⟨v, hv, (isFlagged_eq v).mp hfv⟩
    · intro hall
      have hrz : results.countP isRejected = 0 :=
        List.countP_eq_zero.mpr (fun v hv => by simp [isRejected, (hall v hv).1])
      have hfz : results.countP isFlagged = 0 :=
        List.countP_eq_zero.mpr (fun v hv => by simp [isFlagged, (hall v hv).2])
      rcases h2 with hr | hf
      · rw [hrz] at hr
        exact absurd hr (by simp)
      · rw [hfz] at hf
        exact absurd hf (by simp)
  · push_neg at h2
    obtain ⟨hr0, hf0⟩ := h2
    have hrz : results.countP isRejected = 0 := Nat.le_zero.mp hr0
    have hfz : results.countP isFlagged = 0 := Nat.le_zero.mp hf0
    have hpassed : ∀ v ∈ results, v.passes_validation = true := by
      intro v hv
      have := (List.countP_eq_zero).mp hrz v hv
      simpa [isRejected] using this
    have hwarn : ∀ v ∈ results, v.warnings = [] := by
      intro v hv
      have := (List.countP_eq_zero).mp hfz v hv
      rw [isFlagged] at this
      simp [hpassed v hv] at this
      exact this
    refine ⟨iff_of_false (by simp) ?_, iff_of_false (by simp) ?_, iff_of_true rfl ?_⟩
    · rintro ⟨hne, hall⟩
      obtain ⟨v, hv⟩ := List.exists_mem_of_ne_nil results hne
      exact absurd (hpassed v hv) (by simp [hall v hv])
    · rintro (⟨⟨w, hw, hp⟩, _⟩ | ⟨w, hw, _, hwrn⟩)
      · exact absurd (hpassed w hw) (by simp [hp])
      · exact absurd (hwarn w hw) hwrn
    · intro v hv
      exact ⟨hpassed v hv, hwarn v hv⟩

/-- Componentwise combination of two rule-loop accumulators: counts add
and the violation/warning lists concatenate in order. -/
def EvalState.merge (a b : EvalState) : EvalState :=
  ⟨a.rules_passed + b.rules_passed, a.rules_failed + b.rules_failed,
   a.critical_violations ++ b.critical_violations, a.warnings ++ b.warnings⟩

/-- Merging is associative. -/
lemma EvalState.merge_assoc (a b c : EvalState) :
    EvalState.merge (EvalState.merge a b) c
      = EvalState.merge a (EvalState.merge b c) := by
  simp [EvalState.merge, Nat.add_assoc, List.append_assoc]

/-- One loop iteration only adds on the right, so it factors through the
accumulator. -/
lemma eval_step_merge (row feat_row : PyRow) (s : EvalState) (rule : Rule) :
    eval_step row feat_row s rule
      = EvalState.merge s (eval_step row feat_row EvalState.init rule) := by
  rcases s with ⟨p, f, c, w⟩
  rcases hc : rule.check row feat_row with e | res0 <;>
    simp only [eval_step, hc] <;>
    (try split_ifs) <;>
    simp [EvalState.merge, EvalState.init]

/-- Folding the rule loop from any accumulator equals merging the
accumulator with the fold from the empty one. -/
lemma foldl_eval_step_merge (row feat_row : PyRow) (l : List Rule) (s : EvalState) :
    l.foldl (eval_step row feat_row) s
      = EvalState.merge s (eval_rules l row feat_row) := by
  induction l generalizing s with
  | nil =>
    rcases s with ⟨p, f, c, w⟩
    simp [eval_rules, EvalState.merge, EvalState.init]
  | cons r t ih =>
    show t.foldl _ (eval_step row feat_row s r) = _
    rw [ih, eval_step_merge]
    have : eval_rules (r :: t) row feat_row
        = EvalState.merge (eval_step row feat_row EvalState.init r)
            (eval_rules t row feat_row) := by
      show t.foldl _ (eval_step row feat_row EvalState.init r) = _
      rw [ih]
    rw [this, EvalState.merge_assoc]

/-- The rule loop distributes over catalog concatenation. -/
lemma eval_rules_append (l₁ l₂ : List Rule) (row feat_row : PyRow) :
    eval_rules (l₁ ++ l₂) row feat_row
      = EvalState.merge (eval_rules l₁ row feat_row) (eval_rules l₂ row feat_row) := by
  show (l₁ ++ l₂).foldl _ _ = _
  rw [List.foldl_append, foldl_eval_step_merge]
  rfl

/-- C7: when the check of a rule raises, the loop records exactly one failed
warning-severity RuleResult carrying the error text in its message,
counts one failure, and the rules before and after it are evaluated
unchanged; and the batch loop still evaluates every other record. -/
theorem rule_error_degraded_to_warning (l₁ l₂ : List Rule) (bad : Rule)
    (row feat_row : PyRow) (e : String)
    (h : bad.check row feat_row = Except.error e) :
    eval_rules (l₁ ++ bad :: l₂) row feat_row
      = EvalState.merge (eval_rules l₁ row feat_row)
          (EvalState.merge
            ⟨0, 1, [],
             [{ rule_id := bad.rule_id, rule_name := bad.name, passed := false,
                severity := "warning",
                message := "Rule evaluation error: " ++ e }]⟩
            (eval_rules l₂ row feat_row))
    ∧ ∀ (rs₁ rs₂ : List (Nat × PyRow × PyRow)) (rid : Nat),
        semantic_validate_batch (l₁ ++ bad :: l₂) (rs₁ ++ (rid, row, feat_row) :: rs₂)
          = semantic_validate_batch (l₁ ++ bad :: l₂) rs₁
            ++ evaluate_record rid (l₁ ++ bad :: l₂) row feat_row
              :: semantic_validate_batch (l₁ ++ bad :: l₂) rs₂ := by
  constructor
  · have hsplit : l₁ ++ bad :: l₂ = (l₁ ++ [bad]) ++ l₂ := by simp
    rw [hsplit, eval_rules_append, eval_rules_append, EvalState.merge_assoc]
    have : eval_rules [bad] row feat_row
        = ⟨0, 1, [],
           [{ rule_id := bad.rule_id, rule_name := bad.name, passed := false,
              severity := "warning",
              message := "Rule evaluation error: " ++ e }]⟩ := by
      simp [eval_rules, eval_step, h, EvalState.init]
    rw [this]
  · intro rs₁ rs₂ rid
    simp [semantic_validate_batch]

/-- Witness for C7: in the catalog fragment BR002, BR001, BR005 run on a
feature row whose txn_amount is the string "not-a-number", the BR001
comparison raises, which becomes one failed warning RuleResult carrying
the TypeError text, while BR002 and BR005 are still evaluated. -/
theorem rule_error_degraded_to_warning_witness :
    rule_br001.check [] [("txn_amount", Value.str "not-a-number")]
      = Except.error "TypeError: unsupported comparison"
    ∧ eval_rules ([rule_br002] ++ rule_br001 :: [rule_br005]) []
        [("txn_amount", Value.str "not-a-number")]
      = EvalState.merge (eval_rules [rule_br002] [] [("txn_amount", Value.str "not-a-number")])
          (EvalState.merge
            ⟨0, 1, [],
             [{ rule_id := rule_br001.rule_id, rule_name := rule_br001.name,
                passed := false, severity := "warning",
                message := "Rule evaluation error: " ++ "TypeError: unsupported comparison" }]⟩
            (eval_rules [rule_br005] [] [("txn_amount", Value.str "not-a-number")])) :=
  ⟨by with_unfolding_all rfl,
   (rule_error_degraded_to_warning [rule_br002] [rule_br005] rule_br001 []
      [("txn_amount", Value.str "not-a-number")] "TypeError: unsupported comparison"
      (by with_unfolding_all rfl)).1⟩

/-- C8: for every record and rule catalog, the semantic score equals
rules_passed over the number of rules evaluated times 100 -- 100 when no
rule was evaluated -- and always lies between 0 and 100. -/
theorem semantic_score_formula_and_bounds (rid : Nat) (rules : List Rule)
    (row feat_row : PyRow) :
    (evaluate_record rid rules row feat_row).semantic_score
      = (if 0 < (evaluate_record rid rules row feat_row).rules_passed
              + (evaluate_record rid rules row feat_row).rules_failed
         then ((evaluate_record rid rules row feat_row).rules_passed : ℚ)
            / (((evaluate_record rid rules row feat_row).rules_passed
                + (evaluate_record rid rules row feat_row).rules_failed : Nat) : ℚ)
            * 100
         else 100)
    ∧ 0 ≤ (evaluate_record rid rules row feat_row).semantic_score
    ∧ (evaluate_record rid rules row feat_row).semantic_score ≤ 100 := by
  set p := (eval_rules rules row feat_row).rules_passed with hp
  set f := (eval_rules rules row feat_row).rules_failed with hf
  have hs : (evaluate_record rid rules row feat_row).semantic_score
      = (if 0 < p + f then (p : ℚ) / ((p + f : Nat) : ℚ) * 100 else 100) := rfl
  refine ⟨rfl, ?_, ?_⟩
  · rw [hs]
    split_ifs with h0
    · positivity
    · norm_num
  · rw [hs]
    split_ifs with h0
    · have hpos : (0 : ℚ) < ((p + f : Nat) : ℚ) := by exact_mod_cast h0
      have hle : (p : ℚ) ≤ ((p + f : Nat) : ℚ) := by exact_mod_cast Nat.le_add_right p f
      have hdiv : (p : ℚ) / ((p + f : Nat) : ℚ) ≤ 1 := by
        rw [div_le_one hpos]
        exact hle
      calc (p : ℚ) / ((p + f : Nat) : ℚ) * 100 ≤ 1 * 100 :=
            mul_le_mul_of_nonneg_right hdiv (by norm_num)
        _ = 100 := by norm_num
    · norm_num

/-- C9: when the detected column mapping has exactly the nine required
fields other than customer.customer_id and fraud.risk_score, the
flat-JSON import metadata scores 9/11 of 100 (between 81 and 82), lists
exactly those two missing fields, and counts as standard format since
the score meets the 80 threshold. -/
theorem flat_json_compliance_nine_of_eleven (headers : List String)
    (h1 : ∀ f ∈ (["transaction_id", "amount", "currency", "timestamp", "network",
          "card_type", "merchant_id", "merchant_category_code", "country"] : List String),
        has_field (detect_csv_columns headers) f = true)
    (h2 : has_field (detect_csv_columns headers) "customer_id" = false)
    (h3 : has_field (detect_csv_columns headers) "risk_score" = false) :
    (adapt_flat_json_meta headers).compliance_score = 900/11
    ∧ (adapt_flat_json_meta headers).missing_fields
        = ["customer.customer_id", "fraud.risk_score"]
    ∧ (adapt_flat_json_meta headers).is_standard_format = true
    ∧ (81 : ℚ) < (adapt_flat_json_meta headers).compliance_score
    ∧ (adapt_flat_json_meta headers).compliance_score < 82 := by
  have hrp : required_pairs
      = [("transaction", "transaction_id"), ("transaction", "amount"),
         ("transaction", "currency"), ("transaction", "timestamp"),
         ("card", "network"), ("card", "card_type"),
         ("merchant", "merchant_id"), ("merchant", "merchant_category_code"),
         ("merchant", "country"), ("customer", "customer_id"),
         ("fraud", "risk_score")] := rfl
  have t1 := h1 "transaction_id" (by simp)
  have t2 := h1 "amount" (by simp)
  have t3 := h1 "currency" (by simp)
  have t4 := h1 "timestamp" (by simp)
  have t5 := h1 "network" (by simp)
  have t6 := h1 "card_type" (by simp)
  have t7 := h1 "merchant_id" (by simp)
  have t8 := h1 "merchant_category_code" (by simp)
  have t9 := h1 "country" (by simp)
  have hcm : calculate_schema_compliance (detect_csv_columns headers)
      = (900/11, ["customer.customer_id", "fraud.risk_score"]) := by
    simp only [calculate_schema_compliance, hrp]
    norm_num [t1, t2, t3, t4, t5, t6, t7, t8, t9, h2, h3]
    exact ⟨rfl, rfl⟩
  refine ⟨?_, ?_, ?_, ?_, ?_⟩ <;>
    simp [adapt_flat_json_meta, hcm] <;> norm_num

/-- A concrete flat-JSON header row covering nine of the eleven required
fields -- the MCC arrives under its alias "mcc" -- with no customer id
and no risk score. -/
def sample_flat_headers : List String :=
  ["transaction_id", "amount", "currency", "timestamp", "network",
   "card_type", "merchant_id", "mcc", "country"]

/-- Witness for C9: the sample header row maps the nine fields, misses
the other two, and scores 900/11 with standard-format true. -/
theorem flat_json_compliance_nine_of_eleven_witness :
    (∀ f ∈ (["transaction_id", "amount", "currency", "timestamp", "network",
          "card_type", "merchant_id", "merchant_category_code", "country"] : List String),
        has_field (detect_csv_columns sample_flat_headers) f = true)
    ∧ has_field (detect_csv_columns sample_flat_headers) "customer_id" = false
    ∧ has_field (detect_csv_columns sample_flat_headers) "risk_score" = false
    ∧ (adapt_flat_json_meta sample_flat_headers).compliance_score = 900/11
    ∧ (adapt_flat_json_meta sample_flat_headers).missing_fields
        = ["customer.customer_id", "fraud.risk_score"]
    ∧ (adapt_flat_json_meta sample_flat_headers).is_standard_format = true := by
  have h1 : ∀ f ∈ (["transaction_id", "amount", "currency", "timestamp", "network",
        "card_type", "merchant_id", "merchant_category_code", "country"] : List String),
      has_field (detect_csv_columns sample_flat_headers) f = true := by
    with_unfolding_all decide
  have h2 : has_field (detect_csv_columns sample_flat_headers) "customer_id" = false := by
    with_unfolding_all decide
  have h3 : has_field (detect_csv_columns sample_flat_headers) "risk_score" = false := by
    with_unfolding_all decide
  have h := flat_json_compliance_nine_of_eleven sample_flat_headers h1 h2 h3
  exact ⟨h1, h2, h3, h.1, h.2.1, h.2.2.1⟩

end PaymentPipeline
